import Mathlib

set_option linter.unusedVariables false

/-! Shallow embedding of the book-store order/cart/inventory workflow of
`src/app.py` (Flask + SQLAlchemy).  The relational store is embedded as lists
of records; each HTTP mutation handler becomes a pure function from the store
(plus the request data) to a result code and the new store.  Money values of
SQL type `Numeric(10,2)` are embedded as integer cents, so the program's
`Decimal(...).quantize(Decimal("0.01"))` is the identity on every value it is
ever applied to (all stored prices and their integer multiples are exact cent
amounts). -/

/-- Order status enum of `orders.status` (`"new"|"processing"|"completed"|"cancelled"`). -/
inductive OrderStatus
  | new
  | processing
  | completed
  | cancelled
deriving DecidableEq

/-- Row of table `books`; `price` is in cents; fields irrelevant to the claims
(description, cover, condition, created timestamp precision) are elided or
kept abstract (`created_at : Nat`). -/
structure Book where
  id : Nat
  title : String
  author : String
  price : Int
  owner_id : Nat
  category_id : Option Nat
  created_at : Nat
  is_available : Bool
deriving DecidableEq

/-- Row of table `categories`. -/
structure Category where
  id : Nat
  name : String
deriving DecidableEq

/-- Row of table `orders`; `total` in cents. -/
structure Order where
  id : Nat
  user_id : Nat
  total : Int
  status : OrderStatus
  full_name : String
  phone : String
  address : String
  email : Option String
  comment : Option String
deriving DecidableEq

/-- Row of table `order_items`; `price_at_time` in cents. -/
structure OrderItem where
  id : Nat
  order_id : Nat
  book_id : Nat
  price_at_time : Int
  quantity : Int
deriving DecidableEq

/-- The requesting (authenticated) user: what the handlers read off
`current_user`. -/
structure User where
  id : Nat
  is_admin : Bool
deriving DecidableEq

/-- The relational store. -/
structure Store where
  books : List Book
  categories : List Category
  orders : List Order
  order_items : List OrderItem
deriving DecidableEq

/-- Modelled from the library: Python `str.strip()` (ASCII whitespace). -/
def pyStrip (s : String) : String :=
  ⟨(((s.data.dropWhile (fun c => c.isWhitespace)).reverse).dropWhile
      (fun c => c.isWhitespace)).reverse⟩

/-- Modelled from the library: `str.replace(",", ".")` (single-character
pattern, all occurrences). -/
def replaceCommaDot (s : String) : String :=
  ⟨s.data.map (fun c => if c == ',' then '.' else c)⟩

/-- Modelled from the library: `str.lower()` / SQL `lower()` (ASCII). -/
def lowerStr (s : String) : String :=
  ⟨s.data.map (fun c => c.toLower)⟩

/-- An exact decimal number `num / 10 ^ scale`, the value a successful
`decimal.Decimal(...)` call denotes. -/
structure DecNum where
  num : Int
  scale : Nat
deriving DecidableEq

/-- Fresh primary key: strictly larger than every existing id. -/
def freshId (l : List Nat) : Nat :=
  l.foldr (fun a m => max a m) 0 + 1

/-- `Order.query.get(order_id)` / `get_or_404`. -/
def findOrder (s : Store) (oid : Nat) : Option Order :=
  s.orders.find? (fun o => o.id == oid)

def orderStatus (s : Store) (oid : Nat) : Option OrderStatus :=
  (findOrder s oid).map (fun o => o.status)

def orderTotal (s : Store) (oid : Nat) : Option Int :=
  (findOrder s oid).map (fun o => o.total)

/-- The `order.items` relationship: items whose `order_id` matches. -/
def orderItemsOf (s : Store) (oid : Nat) : List OrderItem :=
  s.order_items.filter (fun it => it.order_id == oid)

/-- The restock loop `for item in order.items: item.book.is_available = True`
(the `hasattr` guard makes it a no-op for dangling book references, which the
map over existing books reflects). -/
def restockBooks (bl : List Book) (items : List OrderItem) : List Book :=
  bl.map (fun b =>
    if items.any (fun it => it.book_id == b.id) then { b with is_available := true } else b)

/-- `recalc_order_total` (src/app.py lines 147-163): overwrite `order.total`
with `coalesce(sum(price_at_time * quantity), 0)` over the order's items,
quantized to 2 fraction digits (identity in the cents embedding). -/
def recalc_order_total (s : Store) (oid : Nat) : Store :=
  let total := List.foldr (fun it acc => it.price_at_time * it.quantity + acc) 0 (orderItemsOf s oid)
  { s with orders := s.orders.map (fun o => if o.id == oid then { o with total := total } else o) }

inductive CheckoutResult
  | emptyCart
  | missingFields
  | placed
deriving DecidableEq

/-- The checkout loop body that creates one `OrderItem` per fetched book
(`price_at_time = b.price`, `quantity = 1`), with fresh sequential ids. -/
def mkItems (oid base : Nat) : List Book → List OrderItem
  | [] => []
  | b :: rest =>
    { id := base, order_id := oid, book_id := b.id, price_at_time := b.price, quantity := 1 }
      :: mkItems oid (base + 1) rest

/-- `cart_checkout` (src/app.py lines 422-485), POST branch.  `cart` is the
session cart (list of book ids); returns the result, the new store and the new
cart. -/
def cart_checkout (s : Store) (uid : Nat) (cart : List Nat)
    (full_name phone address email comment : String) : CheckoutResult × Store × List Nat :=
  if cart.isEmpty then (.emptyCart, s, cart)
  else
    let fetched := s.books.filter (fun b => cart.contains b.id)
    if fetched.isEmpty then (.emptyCart, s, cart)
    else
      let fn := pyStrip full_name
      let ph := pyStrip phone
      let ad := pyStrip address
      let em := pyStrip email
      let cm := pyStrip comment
      if fn.data.isEmpty || ph.data.isEmpty || ad.data.isEmpty then (.missingFields, s, cart)
      else
        let oid := freshId (s.orders.map (fun o => o.id))
        let base := freshId (s.order_items.map (fun it => it.id))
        let order : Order :=
          { id := oid, user_id := uid,
            total := (fetched.map (fun b => b.price)).sum,
            status := .new, full_name := fn, phone := ph, address := ad,
            email := if em.data.isEmpty then none else some em,
            comment := if cm.data.isEmpty then none else some cm }
        (.placed,
          { s with
            books := s.books.map (fun b =>
              if cart.contains b.id then { b with is_available := false } else b),
            orders := s.orders ++ [order],
            order_items := s.order_items ++ mkItems oid base fetched },
          [])

inductive EditResult
  | orderMissing
  | notAllowed
  | terminalBlocked
  | missingFields
  | edited
deriving DecidableEq

/-- `order_edit` (src/app.py lines 529-582), POST branch: auth check, terminal
guard, required-field validation, shipping-field update, deletion of items
whose book is not in `keep_ids` (no restocking), then total recalculation. -/
def order_edit (s : Store) (u : User) (oid : Nat)
    (full_name phone address email comment : String) (keep_ids : List Nat) : EditResult × Store :=
  match findOrder s oid with
  | none => (.orderMissing, s)
  | some o =>
    if (o.user_id != u.id) && !u.is_admin then (.notAllowed, s)
    else if o.status == .completed || o.status == .cancelled then (.terminalBlocked, s)
    else
      let fn := pyStrip full_name
      let ph := pyStrip phone
      let ad := pyStrip address
      let em := pyStrip email
      let cm := pyStrip comment
      if fn.data.isEmpty || ph.data.isEmpty || ad.data.isEmpty then (.missingFields, s)
      else
        let s1 : Store := { s with orders := s.orders.map (fun o2 =>
          if o2.id == oid then
            { o2 with
              full_name := fn, phone := ph, address := ad,
              email := (if em.data.isEmpty then none else some em),
              comment := (if cm.data.isEmpty then none else some cm) }
          else o2) }
        let s2 : Store := { s1 with order_items := s1.order_items.filter (fun it =>
          !(it.order_id == oid) || keep_ids.contains it.book_id) }
        (.edited, recalc_order_total s2 oid)

inductive CancelResult
  | orderMissing
  | notAllowed
  | alreadyTerminal
  | cancelledNow
deriving DecidableEq

/-- `order_cancel` (src/app.py lines 585-604): auth check, terminal guard
(warning, no mutation), otherwise restock every item's book and set the status
to `cancelled`. -/
def order_cancel (s : Store) (u : User) (oid : Nat) : CancelResult × Store :=
  match findOrder s oid with
  | none => (.orderMissing, s)
  | some o =>
    if (o.user_id != u.id) && !u.is_admin then (.notAllowed, s)
    else if o.status == .completed || o.status == .cancelled then (.alreadyTerminal, s)
    else
      (.cancelledNow,
        { s with
          books := restockBooks s.books (orderItemsOf s oid),
          orders := s.orders.map (fun o2 =>
            if o2.id == oid then { o2 with status := .cancelled } else o2) })

inductive ItemDeleteResult
  | orderMissing
  | notAllowed
  | itemMissing
  | itemDeleted
deriving DecidableEq

/-- `order_item_delete` (src/app.py lines 606-641): auth check (note: no
terminal-status guard), item lookup, restock of that item's book, item
deletion, total recalculation, and force-cancel when the item set became
empty. -/
def order_item_delete (s : Store) (u : User) (oid itemId : Nat) : ItemDeleteResult × Store :=
  match findOrder s oid with
  | none => (.orderMissing, s)
  | some o =>
    if (o.user_id != u.id) && !u.is_admin then (.notAllowed, s)
    else
      match s.order_items.find? (fun it => it.id == itemId && it.order_id == oid) with
      | none => (.itemMissing, s)
      | some item =>
        let s1 : Store := { s with books := s.books.map (fun b =>
          if b.id == item.book_id then { b with is_available := true } else b) }
        let s2 : Store := { s1 with order_items := s1.order_items.filter (fun it =>
          !(it.id == itemId && it.order_id == oid)) }
        let s3 := recalc_order_total s2 oid
        let s4 :=
          if (orderItemsOf s3 oid).isEmpty then
            { s3 with orders := s3.orders.map (fun o2 =>
              if o2.id == oid then { o2 with status := .cancelled } else o2) }
          else s3
        (.itemDeleted, s4)

inductive OrderDeleteResult
  | orderMissing
  | notAllowed
  | orderDeleted
deriving DecidableEq

/-- `order_delete` (src/app.py lines 642-664): auth check, restock all items'
books, delete the order (the `delete-orphan` cascade deletes its items). -/
def order_delete (s : Store) (u : User) (oid : Nat) : OrderDeleteResult × Store :=
  match findOrder s oid with
  | none => (.orderMissing, s)
  | some o =>
    if (o.user_id != u.id) && !u.is_admin then (.notAllowed, s)
    else
      (.orderDeleted,
        { s with
          books := restockBooks s.books (orderItemsOf s oid),
          orders := s.orders.filter (fun o2 => !(o2.id == oid)),
          order_items := s.order_items.filter (fun it => !(it.order_id == oid)) })

/-- The membership test `status in ("new", "processing", "completed", "cancelled")`. -/
def parseStatus : String → Option OrderStatus
  | "new" => some .new
  | "processing" => some .processing
  | "completed" => some .completed
  | "cancelled" => some .cancelled
  | _ => none

inductive AdminStatusResult
  | adminOnly
  | orderMissing
  | badStatus
  | statusSet
deriving DecidableEq

/-- `admin_set_order_status` (src/app.py lines 667-680): `admin_required`
guard, order lookup, status whitelist, then `order.status = status` and
nothing else. -/
def admin_set_order_status (s : Store) (u : User) (oid : Nat) (st : String) :
    AdminStatusResult × Store :=
  if !u.is_admin then (.adminOnly, s)
  else
    match findOrder s oid with
    | none => (.orderMissing, s)
    | some _ =>
      match parseStatus st with
      | none => (.badStatus, s)
      | some target =>
        (.statusSet,
          { s with orders := s.orders.map (fun o2 =>
            if o2.id == oid then { o2 with status := target } else o2) })

/-- Value of an unsigned decimal digit string. -/
def natFromDigits (l : List Char) : Nat :=
  l.foldl (fun a c => 10 * a + (c.toNat - 48)) 0

/-- Unsigned part of a plain decimal literal: `digits`, `digits.`, `.digits`
or `digits.digits`; the digits before and after the point concatenate into
the mantissa, the fraction length is the scale. -/
def parseUnsigned (cs : List Char) : Option DecNum :=
  let intPart := cs.takeWhile (fun c => c.isDigit)
  let rest := cs.dropWhile (fun c => c.isDigit)
  match rest with
  | [] => if intPart.isEmpty then none else some { num := natFromDigits intPart, scale := 0 }
  | '.' :: frac =>
    if frac.all (fun c => c.isDigit) && (!intPart.isEmpty || !frac.isEmpty) then
      some { num := natFromDigits (intPart ++ frac), scale := frac.length }
    else none
  | _ => none

/-- Modelled from the library: `decimal.Decimal(str)` as used by the catalog
filter, on the plain forms `[sign] digits [. digits]`; exponents and the
special forms (`NaN`, `Infinity`) are not modelled — on anything else the
parse fails, which the handlers treat as "ignore this bound". -/
def parseDecimal (s : String) : Option DecNum :=
  match s.data with
  | '-' :: cs => (parseUnsigned cs).map (fun d => { d with num := -d.num })
  | '+' :: cs => parseUnsigned cs
  | cs => parseUnsigned cs

/-- Case-sensitive substring test (`LIKE "%pat%"` after both sides are
lowercased by the caller). -/
def strContains (s pat : String) : Bool :=
  decide (pat.data <:+: s.data)

/-- The SQL comparison `bound <= Book.price` on exact decimals, cleared of
denominators: `num / 10 ^ scale <= price / 100`. -/
def decLePrice (m : DecNum) (price : Int) : Bool :=
  decide (m.num * 100 ≤ price * ((10 ^ m.scale : Nat) : Int))

/-- The SQL comparison `Book.price <= bound` on exact decimals. -/
def priceLeDec (price : Int) (m : DecNum) : Bool :=
  decide (price * ((10 ^ m.scale : Nat) : Int) ≤ m.num * 100)

/-- The `min_price` step of the catalog filter: empty string means absent,
a malformed string (after comma-to-dot replacement) is silently ignored. -/
def priceFilterMin (minp : String) (l : List Book) : List Book :=
  if minp.data.isEmpty then l
  else
    match parseDecimal (replaceCommaDot minp) with
    | some m => l.filter (fun b => decLePrice m b.price)
    | none => l

/-- The `max_price` step of the catalog filter. -/
def priceFilterMax (maxp : String) (l : List Book) : List Book :=
  if maxp.data.isEmpty then l
  else
    match parseDecimal (replaceCommaDot maxp) with
    | some m => l.filter (fun b => priceLeDec b.price m)
    | none => l

/-- Free-text search step: case-insensitive substring of title or author. -/
def searchFilter (search : String) (l : List Book) : List Book :=
  if search.data.isEmpty then l
  else l.filter (fun b =>
    strContains (lowerStr b.title) (lowerStr search)
      || strContains (lowerStr b.author) (lowerStr search))

/-- Genre step: `if genre_id:` (so id 0 and absence both skip), join with
`categories` on the foreign key, filter on the category id. -/
def genreFilter (s : Store) (g? : Option Nat) (l : List Book) : List Book :=
  match g? with
  | some g =>
    if g != 0 then
      l.filter (fun b => b.category_id == some g && s.categories.any (fun c => c.id == g))
    else l
  | none => l

/-- Author step: case-insensitive substring (`ilike "%author%"`). -/
def authorFilter (authorq : String) (l : List Book) : List Book :=
  if authorq.data.isEmpty then l
  else l.filter (fun b => strContains (lowerStr b.author) (lowerStr authorq))

/-- Insertion step of `order_by(Book.created_at.desc())`. -/
def insertByCreated (b : Book) : List Book → List Book
  | [] => [b]
  | c :: rest =>
    if c.created_at ≥ b.created_at then c :: insertByCreated b rest else b :: c :: rest

/-- `order_by(Book.created_at.desc())` as an insertion sort. -/
def sortByCreatedDesc : List Book → List Book
  | [] => []
  | b :: rest => insertByCreated b (sortByCreatedDesc rest)

/-- Query parameters of `GET /books` (absent string parameters arrive as `""`,
`genre_id` is parsed with `type=int`, so malformed input arrives as `none`). -/
structure BookQuery where
  q : String
  genre_id : Option Nat
  author : String
  min_price : String
  max_price : String
deriving DecidableEq

/-- `books` (src/app.py lines 170-222): available books only, then the five
optional filters, then newest-first ordering. -/
def books (s : Store) (qp : BookQuery) : List Book :=
  sortByCreatedDesc
    (priceFilterMax (pyStrip qp.max_price)
      (priceFilterMin (pyStrip qp.min_price)
        (authorFilter (pyStrip qp.author)
          (genreFilter s qp.genre_id
            (searchFilter (pyStrip qp.q)
              (s.books.filter (fun b => b.is_available)))))))

/-- The availability invariant claimed by the spec: a book is unavailable iff
some item of a non-cancelled order references it. -/
def availabilityInvariant (s : Store) : Prop :=
  ∀ b ∈ s.books,
    (b.is_available = false ↔
      ∃ it ∈ s.order_items, it.book_id = b.id ∧
        ∃ o ∈ s.orders, o.id = it.order_id ∧ o.status ≠ OrderStatus.cancelled)

instance (s : Store) : Decidable (availabilityInvariant s) := by
  unfold availabilityInvariant
  infer_instance

/-! Helper lemmas about the list-level operations. -/

theorem mem_insertByCreated {x b : Book} {l : List Book} :
    x ∈ insertByCreated b l ↔ x = b ∨ x ∈ l := by
  induction l with
  | nil => simp [insertByCreated]
  | cons c rest ih =>
    rw [insertByCreated]
    split
    · rw [List.mem_cons, ih, List.mem_cons]
      tauto
    · rw [List.mem_cons, List.mem_cons]

theorem mem_sortByCreatedDesc {x : Book} {l : List Book} :
    x ∈ sortByCreatedDesc l ↔ x ∈ l := by
  induction l with
  | nil => simp [sortByCreatedDesc]
  | cons b rest ih => simp [sortByCreatedDesc, mem_insertByCreated, ih]

theorem find?_map_id_pres (f : Order → Order) (hid : ∀ o, (f o).id = o.id) (oid : Nat)
    (l : List Order) :
    (l.map f).find? (fun o => o.id == oid) = (l.find? (fun o => o.id == oid)).map f := by
  induction l with
  | nil => rfl
  | cons a rest ih =>
    rw [List.map_cons, List.find?_cons, List.find?_cons, hid a]
    by_cases h : (a.id == oid) = true
    · simp [h]
    · simp only [Bool.not_eq_true] at h
      simp [h, ih]

theorem foldr_items_sum (l : List OrderItem) :
    List.foldr (fun it acc => it.price_at_time * it.quantity + acc) 0 l
      = (l.map (fun it => it.price_at_time * it.quantity)).sum := by
  induction l with
  | nil => rfl
  | cons a rest ih => simp [List.sum_cons, ih]

theorem any_filter_not {α : Type} (l : List α) (p : α → Bool) :
    ((l.filter (fun a => !(p a))).any p) = false := by
  induction l with
  | nil => rfl
  | cons a rest ih =>
    by_cases h : p a <;> simp [List.filter_cons, h, ih]

theorem le_foldr_max (a : Nat) : ∀ l : List Nat, a ∈ l → a ≤ l.foldr (fun x m => max x m) 0 := by
  intro l
  induction l with
  | nil => intro h; cases h
  | cons b rest ih =>
    intro h
    rcases List.mem_cons.mp h with rfl | h2
    · exact le_max_left _ _
    · exact le_trans (ih h2) (le_max_right _ _)

theorem lt_freshId {l : List Nat} {a : Nat} (h : a ∈ l) : a < freshId l := by
  have := le_foldr_max a l h
  unfold freshId
  omega

theorem mkItems_proj (oid : Nat) (bs : List Book) : ∀ base : Nat,
    (mkItems oid base bs).map (fun it => (it.book_id, it.price_at_time, it.quantity))
      = bs.map (fun b => (b.id, b.price, (1 : Int))) := by
  induction bs with
  | nil => intro base; rfl
  | cons b rest ih => intro base; simp [mkItems, ih]

theorem mkItems_order_id (oid : Nat) (bs : List Book) : ∀ (base : Nat) (it : OrderItem),
    it ∈ mkItems oid base bs → it.order_id = oid := by
  induction bs with
  | nil => intro base it h; cases h
  | cons b rest ih =>
    intro base it h
    rcases List.mem_cons.mp h with rfl | h2
    · rfl
    · exact ih (base + 1) it h2

theorem mkItems_filter_self (oid base : Nat) (bs : List Book) :
    (mkItems oid base bs).filter (fun it => it.order_id == oid) = mkItems oid base bs := by
  apply List.filter_eq_self.mpr
  intro it hit
  simp [mkItems_order_id oid bs base it hit]

theorem mem_of_mem_priceFilterMax {b : Book} {l : List Book} {maxp : String}
    (h : b ∈ priceFilterMax maxp l) : b ∈ l := by
  unfold priceFilterMax at h
  split at h
  · exact h
  · split at h
    · exact List.mem_of_mem_filter h
    · exact h

theorem mem_of_mem_priceFilterMin {b : Book} {l : List Book} {minp : String}
    (h : b ∈ priceFilterMin minp l) : b ∈ l := by
  unfold priceFilterMin at h
  split at h
  · exact h
  · split at h
    · exact List.mem_of_mem_filter h
    · exact h

theorem mem_of_mem_authorFilter {b : Book} {l : List Book} {aq : String}
    (h : b ∈ authorFilter aq l) : b ∈ l := by
  unfold authorFilter at h
  split at h
  · exact h
  · exact List.mem_of_mem_filter h

theorem mem_of_mem_genreFilter {b : Book} {l : List Book} {s : Store} {g? : Option Nat}
    (h : b ∈ genreFilter s g? l) : b ∈ l := by
  unfold genreFilter at h
  split at h
  · split at h
    · exact List.mem_of_mem_filter h
    · exact h
  · exact h

theorem mem_of_mem_searchFilter {b : Book} {l : List Book} {sq : String}
    (h : b ∈ searchFilter sq l) : b ∈ l := by
  unfold searchFilter at h
  split at h
  · exact h
  · exact List.mem_of_mem_filter h

theorem books_subset_available (s : Store) (qp : BookQuery) :
    ∀ b ∈ books s qp, b ∈ s.books.filter (fun b => b.is_available) := by
  intro b hb
  unfold books at hb
  exact mem_of_mem_searchFilter (mem_of_mem_genreFilter (mem_of_mem_authorFilter
    (mem_of_mem_priceFilterMin (mem_of_mem_priceFilterMax (mem_sortByCreatedDesc.mp hb)))))

/-! Concrete fixtures used by witnesses and counterexamples. -/

def buyer : User := { id := 3, is_admin := false }

def adminUser : User := { id := 4, is_admin := true }

def stranger : User := { id := 5, is_admin := false }

def bookA : Book :=
  { id := 1, title := "A", author := "AA", price := 500, owner_id := 9,
    category_id := none, created_at := 1, is_available := true }

def bookB : Book :=
  { id := 2, title := "B", author := "BB", price := 750, owner_id := 9,
    category_id := none, created_at := 2, is_available := true }

/-- Store for the checkout example of the spec: two available books, nothing else. -/
def storeAB : Store :=
  { books := [bookA, bookB], categories := [], orders := [], order_items := [] }

/-- Store with book 1 sold through order 1 (status `new`, owned by `buyer`). -/
def storeSold : Store :=
  { books := [{ bookA with is_available := false }],
    categories := [],
    orders := [{ id := 1, user_id := 3, total := 500, status := .new, full_name := "N",
                 phone := "P", address := "D", email := none, comment := none }],
    order_items := [{ id := 1, order_id := 1, book_id := 1, price_at_time := 500, quantity := 1 }] }

/-- Same but the order is already `completed`. -/
def storeCompleted : Store :=
  { storeSold with
    orders := [{ id := 1, user_id := 3, total := 500, status := .completed, full_name := "N",
                 phone := "P", address := "D", email := none, comment := none }] }

example : availabilityInvariant storeSold := by decide
example : (order_edit storeSold buyer 1 "N" "P" "D" "" "" []).1 = .edited := by decide
example : ¬ availabilityInvariant (order_edit storeSold buyer 1 "N" "P" "D" "" "" []).2 := by decide
example : (order_cancel storeSold buyer 1).1 = .cancelledNow := by decide
example : (order_cancel storeSold buyer 1).2.books = [bookA] := by decide
example : (order_item_delete storeCompleted buyer 1 1).1 = .itemDeleted := by decide
example : orderStatus (order_item_delete storeCompleted buyer 1 1).2 1 = some .cancelled := by decide
example : parseDecimal "10.00" = some { num := 1000, scale := 2 } := by decide
example : parseDecimal "abc" = none := by decide
example : parseDecimal "12,5" = none := by decide
example : parseDecimal (replaceCommaDot "12,5") = some { num := 125, scale := 1 } := by decide
example : pyStrip "  a b " = "a b" := by decide
example : lowerStr "AbC" = "abc" := by decide
example : strContains "hello" "ell" = true := by decide
example : strContains "hello" "xy" = false := by decide

theorem restockBooks_all (bl : List Book) (items : List OrderItem) :
    ((restockBooks bl items).all
      (fun b => !(items.any (fun it => it.book_id == b.id)) || b.is_available)) = true := by
  rw [List.all_eq_true]
  intro b hb
  rcases List.mem_map.mp hb with ⟨a, ha, rfl⟩
  by_cases h : (items.any (fun it => it.book_id == a.id)) = true
  · simp [h]
  · simp only [Bool.not_eq_true] at h
    simp [h]

theorem flipBooks_all (bl : List Book) (cart : List Nat) :
    ((bl.map (fun b => if cart.contains b.id then { b with is_available := false } else b)).all
      (fun b => !(cart.contains b.id) || !b.is_available)) = true := by
  rw [List.all_eq_true]
  intro b hb
  rcases List.mem_map.mp hb with ⟨a, ha, rfl⟩
  cases h : cart.contains a.id with
  | true => simp
  | false =>
    simp
    exact Or.inl (by simpa using h)

theorem restockOne_all (bl : List Book) (bid : Nat) :
    ((bl.map (fun b => if b.id == bid then { b with is_available := true } else b)).all
      (fun b => !(b.id == bid) || b.is_available)) = true := by
  rw [List.all_eq_true]
  intro b hb
  rcases List.mem_map.mp hb with ⟨a, ha, rfl⟩
  by_cases h : (a.id == bid) = true
  · simp [h]
  · simp only [Bool.not_eq_true] at h
    simp [h]

theorem find?_append_right {α : Type} (l1 l2 : List α) (p : α → Bool)
    (h : ∀ a ∈ l1, p a = false) : (l1 ++ l2).find? p = l2.find? p := by
  induction l1 with
  | nil => rfl
  | cons a rest ih =>
    have ha := h a (by simp)
    rw [List.cons_append, List.find?_cons, ha]
    exact ih (fun a2 ha2 => h a2 (by simp [ha2]))

theorem orderStatus_map_pres (l : List Order) (f : Order → Order)
    (hid : ∀ o, (f o).id = o.id) (hst : ∀ o, (f o).status = o.status) (oid : Nat) :
    ((l.map f).find? (fun o => o.id == oid)).map (fun o => o.status)
      = (l.find? (fun o => o.id == oid)).map (fun o => o.status) := by
  rw [find?_map_id_pres f hid oid l]
  cases l.find? (fun o => o.id == oid) with
  | none => rfl
  | some o => simp [hst]

theorem priceFilterMin_skip {mp : String}
    (h : parseDecimal (replaceCommaDot mp) = none) (l : List Book) :
    priceFilterMin mp l = l := by
  unfold priceFilterMin
  split
  · rfl
  · rw [h]

theorem priceFilterMax_skip {mp : String}
    (h : parseDecimal (replaceCommaDot mp) = none) (l : List Book) :
    priceFilterMax mp l = l := by
  unfold priceFilterMax
  split
  · rfl
  · rw [h]

theorem recalc_books (s : Store) (oid : Nat) :
    (recalc_order_total s oid).books = s.books := rfl

theorem recalc_order_items (s : Store) (oid : Nat) :
    (recalc_order_total s oid).order_items = s.order_items := rfl

theorem recalc_categories (s : Store) (oid : Nat) :
    (recalc_order_total s oid).categories = s.categories := rfl

theorem order_edit_books_frame (s : Store) (u : User) (oid : Nat)
    (fn ph ad em cm : String) (keep : List Nat) :
    (order_edit s u oid fn ph ad em cm keep).2.books = s.books := by
  unfold order_edit
  split
  · rfl
  · split
    · rfl
    · split
      · rfl
      · dsimp only
        split
        · rfl
        · rfl

theorem filter_ne_id_map (f : Order → Order) (oid : Nat)
    (hid : ∀ o, (f o).id = o.id)
    (hne : ∀ o, (o.id == oid) = false → f o = o) :
    ∀ l : List Order, (l.map f).filter (fun o2 => !(o2.id == oid))
      = l.filter (fun o2 => !(o2.id == oid)) := by
  intro l
  induction l with
  | nil => rfl
  | cons a rest ih =>
    rw [List.map_cons, List.filter_cons, List.filter_cons, hid a]
    cases h : (a.id == oid) with
    | true =>
      simp only [h, Bool.not_true, Bool.false_eq_true, if_false]
      exact ih
    | false =>
      simp only [h, Bool.not_false, if_true]
      rw [hne a h, ih]

/-- C4: `recalc_order_total` overwrites the order's total with the sum of
`price_at_time * quantity` over the order's current items, yields exactly zero
when the order has no items, stores an exact cent amount (2 fraction digits in
the cents embedding), and changes nothing else: books, items, categories and
every non-total field of every order are untouched, and every order whose id
differs from the target is returned exactly unchanged, its total included. -/
theorem c4_recalc_contract (s : Store) (oid : Nat) (o : Order)
    (h : findOrder s oid = some o) :
    orderTotal (recalc_order_total s oid) oid
        = some (((orderItemsOf s oid).map (fun it => it.price_at_time * it.quantity)).sum)
      ∧ (orderItemsOf s oid = [] → orderTotal (recalc_order_total s oid) oid = some 0)
      ∧ (recalc_order_total s oid).books = s.books
      ∧ (recalc_order_total s oid).order_items = s.order_items
      ∧ (recalc_order_total s oid).categories = s.categories
      ∧ (recalc_order_total s oid).orders.map (fun o2 => { o2 with total := 0 })
          = s.orders.map (fun o2 => { o2 with total := 0 })
      ∧ (recalc_order_total s oid).orders.filter (fun o2 => !(o2.id == oid))
          = s.orders.filter (fun o2 => !(o2.id == oid)) := by
  have hfind : s.orders.find? (fun o2 => o2.id == oid) = some o := by
    simpa [findOrder] using h
  have hpo : (o.id == oid) = true := by simpa using List.find?_some hfind
  have htot : orderTotal (recalc_order_total s oid) oid
      = some (((orderItemsOf s oid).map (fun it => it.price_at_time * it.quantity)).sum) := by
    unfold orderTotal findOrder recalc_order_total
    dsimp only
    rw [find?_map_id_pres _ (fun o2 => by split <;> rfl) oid s.orders, hfind]
    have he : o.id = oid := by simpa using hpo
    simp [he, foldr_items_sum]
  refine ⟨htot, ?_, rfl, rfl, rfl, ?_, ?_⟩
  · intro he
    rw [htot, he]
    rfl
  · unfold recalc_order_total
    dsimp only
    rw [List.map_map]
    apply List.map_congr_left
    intro a ha
    dsimp only [Function.comp]
    split <;> rfl
  · unfold recalc_order_total
    dsimp only
    exact filter_ne_id_map _ oid (fun o2 => by split <;> rfl)
      (fun o2 h2 => by simp [h2]) s.orders

/-- C4 witness: on the concrete sold-book store, recalculating order 1 stores
total 500 (5.00), and on the emptied variant it stores 0. -/
theorem c4_witness :
    orderTotal (recalc_order_total storeSold 1) 1 = some 500 := by
  have h := (c4_recalc_contract storeSold 1
    { id := 1, user_id := 3, total := 500, status := .new, full_name := "N",
      phone := "P", address := "D", email := none, comment := none } (by decide)).1
  exact h.trans (by decide)

/-- C3: checkout failure paths are side-effect free: with an empty cart the
whole operation aborts returning the store and cart unchanged, and whenever a
required shipping field is blank after stripping, the store and the cart are
returned unchanged (no order, no items, no availability change). -/
theorem c3_checkout_failure_frames (s : Store) (uid : Nat) (cart : List Nat)
    (fn ph ad em cm : String) :
    (cart = [] → cart_checkout s uid cart fn ph ad em cm = (.emptyCart, s, cart))
  ∧ (((pyStrip fn).data.isEmpty = true ∨ (pyStrip ph).data.isEmpty = true
        ∨ (pyStrip ad).data.isEmpty = true) →
      (cart_checkout s uid cart fn ph ad em cm).2 = (s, cart)) := by
  constructor
  · intro hc
    subst hc
    rfl
  · intro hv
    simp only [cart_checkout]
    split
    · rfl
    · split
      · rfl
      · split
        · rfl
        · exfalso
          rename_i hcond
          rcases hv with hx | hx | hx <;> simp [hx] at hcond

/-- C3 witness: concrete empty cart and concrete blank-address request leave
the two-book store untouched. -/
theorem c3_witness :
    cart_checkout storeAB 3 [] "I" "123" "D" "" "" = (.emptyCart, storeAB, [])
      ∧ (cart_checkout storeAB 3 [1, 2] "I" "123" "  " "" "").2 = (storeAB, [1, 2]) := by
  constructor
  · exact (c3_checkout_failure_frames storeAB 3 [] "I" "123" "D" "" "").1 rfl
  · exact (c3_checkout_failure_frames storeAB 3 [1, 2] "I" "123" "  " "" "").2
      (Or.inr (Or.inr (by decide)))

/-- C9: every order lifecycle operation (edit, cancel, single-item delete,
order delete) performed by a requester who is neither the order's owner nor an
admin is rejected as forbidden with the store unchanged. -/
theorem c9_authorization (s : Store) (u : User) (oid itemId : Nat) (o : Order)
    (fn ph ad em cm : String) (keep : List Nat)
    (hfind : findOrder s oid = some o)
    (howner : (o.user_id != u.id) = true)
    (hadmin : u.is_admin = false) :
    order_edit s u oid fn ph ad em cm keep = (.notAllowed, s)
  ∧ order_cancel s u oid = (.notAllowed, s)
  ∧ order_item_delete s u oid itemId = (.notAllowed, s)
  ∧ order_delete s u oid = (.notAllowed, s) := by
  have hauth : ((o.user_id != u.id) && !u.is_admin) = true := by
    rw [howner, hadmin]; rfl
  refine ⟨?_, ?_, ?_, ?_⟩
  · unfold order_edit
    rw [hfind]
    simp [hauth]
  · unfold order_cancel
    rw [hfind]
    simp [hauth]
  · unfold order_item_delete
    rw [hfind]
    simp [hauth]
  · unfold order_delete
    rw [hfind]
    simp [hauth]

/-- C9 witness: a stranger (neither owner nor admin) is rejected on all four
operations on the concrete sold-book store. -/
theorem c9_witness :
    order_cancel storeSold stranger 1 = (.notAllowed, storeSold)
      ∧ order_delete storeSold stranger 1 = (.notAllowed, storeSold) := by
  have h := c9_authorization storeSold stranger 1 1
    { id := 1, user_id := 3, total := 500, status := .new, full_name := "N",
      phone := "P", address := "D", email := none, comment := none }
    "N" "P" "D" "" "" [] (by decide) (by decide) rfl
  exact ⟨h.2.1, h.2.2.2⟩

/-- C10: the admin status transition modifies at most the target order's
status field — books (hence availability: no restock even on `cancelled`),
order items, categories and every non-status field of every order are
unchanged — and with an admin requester, an existing order and a whitelisted
status string it does set that order's status to the requested value. -/
theorem c10_admin_status_frame (s : Store) (u : User) (oid : Nat) (st : String)
    (o : Order) (target : OrderStatus) :
    (admin_set_order_status s u oid st).2.books = s.books
  ∧ (admin_set_order_status s u oid st).2.order_items = s.order_items
  ∧ (admin_set_order_status s u oid st).2.categories = s.categories
  ∧ (admin_set_order_status s u oid st).2.orders.map (fun o2 => { o2 with status := .new })
      = s.orders.map (fun o2 => { o2 with status := .new })
  ∧ (u.is_admin = true → findOrder s oid = some o → parseStatus st = some target →
      orderStatus (admin_set_order_status s u oid st).2 oid = some target) := by
  refine ⟨?_, ?_, ?_, ?_, ?_⟩
  · unfold admin_set_order_status
    split
    · rfl
    · split
      · rfl
      · split
        · rfl
        · rfl
  · unfold admin_set_order_status
    split
    · rfl
    · split
      · rfl
      · split
        · rfl
        · rfl
  · unfold admin_set_order_status
    split
    · rfl
    · split
      · rfl
      · split
        · rfl
        · rfl
  · unfold admin_set_order_status
    split
    · rfl
    · split
      · rfl
      · split
        · rfl
        · dsimp only
          rw [List.map_map]
          apply List.map_congr_left
          intro a ha
          dsimp only [Function.comp]
          split <;> rfl
  · intro hadm hfind hparse
    have hf2 : s.orders.find? (fun o2 => o2.id == oid) = some o := by
      simpa [findOrder] using hfind
    have hpo : (o.id == oid) = true := by simpa using List.find?_some hf2
    unfold admin_set_order_status
    rw [hadm]
    simp only [Bool.not_true, Bool.false_eq_true, if_false]
    rw [hfind, hparse]
    unfold orderStatus findOrder
    dsimp only
    rw [find?_map_id_pres _ (fun o2 => by split <;> rfl) oid s.orders, hf2]
    have he : o.id = oid := by simpa using hpo
    simp [he]

/-- C10 witness: on the concrete sold-book store the admin flips order 1 to
`completed`; the frame conjuncts are closed for those inputs too. -/
theorem c10_witness :
    orderStatus (admin_set_order_status storeSold adminUser 1 "completed").2 1
      = some .completed := by
  exact (c10_admin_status_frame storeSold adminUser 1 "completed"
    { id := 1, user_id := 3, total := 500, status := .new, full_name := "N",
      phone := "P", address := "D", email := none, comment := none }
    .completed).2.2.2.2 rfl (by decide) rfl

theorem order_cancel_shape (s : Store) (u : User) (oid : Nat) (r : CancelResult) (s2 : Store)
    (hE : order_cancel s u oid = (r, s2)) (hr : r = .cancelledNow) :
    ∃ o, findOrder s oid = some o
      ∧ ((o.user_id != u.id) && !u.is_admin) = false
      ∧ (o.status == OrderStatus.completed || o.status == OrderStatus.cancelled) = false
      ∧ s2 = { s with
               books := restockBooks s.books (orderItemsOf s oid),
               orders := s.orders.map (fun o2 =>
                 if o2.id == oid then { o2 with status := .cancelled } else o2) } := by
  subst hr
  unfold order_cancel at hE
  split at hE
  · simp at hE
  · rename_i o hfind
    split at hE
    · simp at hE
    · split at hE
      · simp at hE
      · rename_i hauth hterm
        simp only [Prod.mk.injEq, true_and] at hE
        exact ⟨o, hfind, by simpa using hauth, by simpa using hterm, hE.symm⟩

/-- C7: cancelling an already-terminal order is an idempotent no-op answered
with a warning (store unchanged); cancelling a non-terminal order sets its
status to `cancelled`; and immediately cancelling again hits the terminal
no-op path, changing nothing. -/
theorem c7_cancel_idempotent (s : Store) (u : User) (oid : Nat) (o : Order) :
    (findOrder s oid = some o → (o.status = .completed ∨ o.status = .cancelled) →
       ((o.user_id != u.id) && !u.is_admin) = false →
       order_cancel s u oid = (.alreadyTerminal, s))
  ∧ ((order_cancel s u oid).1 = .cancelledNow →
       orderStatus (order_cancel s u oid).2 oid = some .cancelled)
  ∧ ((order_cancel s u oid).1 = .cancelledNow →
       order_cancel (order_cancel s u oid).2 u oid
         = (.alreadyTerminal, (order_cancel s u oid).2)) := by
  refine ⟨?_, ?_, ?_⟩
  · intro hfind hterm hauth
    unfold order_cancel
    rw [hfind]
    rcases hterm with h | h <;> simp [hauth, h]
  · intro hr
    rcases hE : order_cancel s u oid with ⟨r, s2⟩
    rw [hE] at hr
    obtain ⟨o2, hfind, hauth, hterm, hs2⟩ := order_cancel_shape s u oid r s2 hE hr
    show orderStatus s2 oid = some .cancelled
    subst hs2
    have hf2 : s.orders.find? (fun o3 => o3.id == oid) = some o2 := by
      simpa [findOrder] using hfind
    have he : o2.id = oid := by simpa using List.find?_some hf2
    unfold orderStatus findOrder
    dsimp only
    rw [find?_map_id_pres _ (fun o3 => by split <;> rfl) oid s.orders, hf2]
    simp [he]
  · intro hr
    rcases hE : order_cancel s u oid with ⟨r, s2⟩
    rw [hE] at hr
    obtain ⟨o2, hfind, hauth, hterm, hs2⟩ := order_cancel_shape s u oid r s2 hE hr
    show order_cancel s2 u oid = (.alreadyTerminal, s2)
    have hf2 : s.orders.find? (fun o3 => o3.id == oid) = some o2 := by
      simpa [findOrder] using hfind
    have he : o2.id = oid := by simpa using List.find?_some hf2
    have hfind2 : findOrder s2 oid = some { o2 with status := .cancelled } := by
      rw [hs2]
      unfold findOrder
      dsimp only
      rw [find?_map_id_pres _ (fun o3 => by split <;> rfl) oid s.orders, hf2]
      simp [he]
    unfold order_cancel
    rw [hfind2]
    simp [hauth]

/-- C7 witness: cancelling the completed order warns and changes nothing;
cancelling the live order once succeeds, and a second cancel of the resulting
store is the warning no-op. -/
theorem c7_witness :
    order_cancel storeCompleted buyer 1 = (.alreadyTerminal, storeCompleted)
      ∧ order_cancel (order_cancel storeSold buyer 1).2 buyer 1
          = (.alreadyTerminal, (order_cancel storeSold buyer 1).2) := by
  constructor
  · exact (c7_cancel_idempotent storeCompleted buyer 1
      { id := 1, user_id := 3, total := 500, status := .completed, full_name := "N",
        phone := "P", address := "D", email := none, comment := none }).1
      (by decide) (Or.inl rfl) rfl
  · exact (c7_cancel_idempotent storeSold buyer 1
      { id := 1, user_id := 3, total := 500, status := .new, full_name := "N",
        phone := "P", address := "D", email := none, comment := none }).2.2 rfl

theorem order_item_delete_eq (s : Store) (u : User) (oid itemId : Nat)
    (o : Order) (item : OrderItem)
    (hfind : findOrder s oid = some o)
    (hauth : ((o.user_id != u.id) && !u.is_admin) = false)
    (hitem : s.order_items.find? (fun it => it.id == itemId && it.order_id == oid)
      = some item) :
    order_item_delete s u oid itemId =
      (.itemDeleted,
        let s1 : Store := { s with books := s.books.map (fun b =>
          if b.id == item.book_id then { b with is_available := true } else b) }
        let s2 : Store := { s1 with order_items := s1.order_items.filter (fun it =>
          !(it.id == itemId && it.order_id == oid)) }
        let s3 := recalc_order_total s2 oid
        if (orderItemsOf s3 oid).isEmpty then
          { s3 with orders := s3.orders.map (fun o2 =>
            if o2.id == oid then { o2 with status := .cancelled } else o2) }
        else s3) := by
  unfold order_item_delete
  rw [hfind]
  dsimp only
  rw [if_neg (by simp [hauth]), hitem]

theorem order_item_delete_shape (s : Store) (u : User) (oid itemId : Nat)
    (r : ItemDeleteResult) (s2 : Store)
    (hE : order_item_delete s u oid itemId = (r, s2)) (hr : r = .itemDeleted) :
    ∃ o item, findOrder s oid = some o
      ∧ ((o.user_id != u.id) && !u.is_admin) = false
      ∧ s.order_items.find? (fun it => it.id == itemId && it.order_id == oid) = some item := by
  subst hr
  unfold order_item_delete at hE
  split at hE
  · simp at hE
  · rename_i o hfind
    split at hE
    · simp at hE
    · rename_i hauth
      split at hE
      · simp at hE
      · rename_i item hitem
        exact ⟨o, item, hfind, by simpa using hauth, hitem⟩

/-- C5: a terminal order (`completed` or `cancelled`) rejects the edit
operation with no change at all to the store (result `terminalBlocked` for an
authorized requester); the single-item delete operation, however, carries no
terminal guard: for any authorized requester and existing item — regardless
of the order's status — it reports success and removes the item. -/
theorem c5_terminal_guard (s : Store) (u : User) (oid itemId : Nat) (o : Order)
    (it0 : OrderItem) (fn ph ad em cm : String) (keep : List Nat) :
    (findOrder s oid = some o → (o.status = .completed ∨ o.status = .cancelled) →
       (order_edit s u oid fn ph ad em cm keep).2 = s)
  ∧ (findOrder s oid = some o → (o.status = .completed ∨ o.status = .cancelled) →
       ((o.user_id != u.id) && !u.is_admin) = false →
       order_edit s u oid fn ph ad em cm keep = (.terminalBlocked, s))
  ∧ (findOrder s oid = some o →
       ((o.user_id != u.id) && !u.is_admin) = false →
       s.order_items.find? (fun it => it.id == itemId && it.order_id == oid) = some it0 →
       (order_item_delete s u oid itemId).1 = .itemDeleted
         ∧ ((order_item_delete s u oid itemId).2.order_items.any
             (fun it => it.id == itemId && it.order_id == oid)) = false) := by
  refine ⟨?_, ?_, ?_⟩
  · intro hfind hterm
    unfold order_edit
    rw [hfind]
    rcases hterm with h | h
    · by_cases ha : ((o.user_id != u.id) && !u.is_admin) = true <;> simp [ha, h]
    · by_cases ha : ((o.user_id != u.id) && !u.is_admin) = true <;> simp [ha, h]
  · intro hfind hterm hauth
    unfold order_edit
    rw [hfind]
    rcases hterm with h | h <;> simp [hauth, h]
  · intro hfind hauth hitem
    have hE := order_item_delete_eq s u oid itemId o it0 hfind hauth hitem
    constructor
    · rw [hE]
    · rw [hE]
      dsimp only
      split
      · exact any_filter_not _ _
      · exact any_filter_not _ _

/-- C5 counterexample: deleting the single item of the concrete `completed`
order empties its item set, restocks the book, rewrites the total to 0 and
flips the status to `cancelled` — the operation mutates a terminal order,
contradicting the claim that terminal orders permit no structural edits. -/
theorem c5_counterexample :
    (order_item_delete storeCompleted buyer 1 1).2.order_items = []
      ∧ orderStatus (order_item_delete storeCompleted buyer 1 1).2 1 = some .cancelled
      ∧ orderTotal (order_item_delete storeCompleted buyer 1 1).2 1 = some 0
      ∧ (order_item_delete storeCompleted buyer 1 1).2 ≠ storeCompleted := by
  refine ⟨by decide, by decide, by decide, by decide⟩

/-- C5 witness: on the concrete completed order the edit is refused with the
store unchanged, while the item delete succeeds. -/
theorem c5_witness :
    (order_edit storeCompleted buyer 1 "X" "Y" "Z" "" "" []).2 = storeCompleted
      ∧ order_edit storeCompleted buyer 1 "X" "Y" "Z" "" "" [] = (.terminalBlocked, storeCompleted)
      ∧ (order_item_delete storeCompleted buyer 1 1).1 = .itemDeleted := by
  have h := c5_terminal_guard storeCompleted buyer 1 1
    { id := 1, user_id := 3, total := 500, status := .completed, full_name := "N",
      phone := "P", address := "D", email := none, comment := none }
    { id := 1, order_id := 1, book_id := 1, price_at_time := 500, quantity := 1 }
    "X" "Y" "Z" "" "" []
  exact ⟨h.1 (by decide) (Or.inl rfl), h.2.1 (by decide) (Or.inl rfl) rfl,
    (h.2.2 (by decide) rfl (by decide)).1⟩

/-- C6 (as amended): deleting an order's last item force-sets the status to
`cancelled` — after a successful single-item delete that leaves the order's
item set empty, the status is `cancelled`; the edit operation, however, never
changes any order's status, even when its kept set removes every item. -/
theorem c6_empty_order_cancelled (s : Store) (u : User) (oid itemId : Nat)
    (fn ph ad em cm : String) (keep : List Nat) :
    ((order_item_delete s u oid itemId).1 = .itemDeleted →
       orderItemsOf (order_item_delete s u oid itemId).2 oid = [] →
       orderStatus (order_item_delete s u oid itemId).2 oid = some .cancelled)
  ∧ (∀ oid2 : Nat, orderStatus (order_edit s u oid fn ph ad em cm keep).2 oid2
       = orderStatus s oid2) := by
  constructor
  · intro hr he
    obtain ⟨o, item, hfind, hauth, hitem⟩ := order_item_delete_shape s u oid itemId
      (order_item_delete s u oid itemId).1 (order_item_delete s u oid itemId).2 rfl hr
    have hE := order_item_delete_eq s u oid itemId o item hfind hauth hitem
    rw [hE] at he ⊢
    dsimp only at he ⊢
    have hf2 : s.orders.find? (fun o3 => o3.id == oid) = some o := by
      simpa [findOrder] using hfind
    have he2 : o.id = oid := by simpa using List.find?_some hf2
    split
    · unfold orderStatus findOrder recalc_order_total
      dsimp only
      rw [find?_map_id_pres _ (fun o3 => by split <;> rfl) oid,
        find?_map_id_pres _ (fun o3 => by split <;> rfl) oid, hf2]
      simp [he2]
    · rename_i hc
      rw [if_neg hc] at he
      rw [he] at hc
      exact absurd rfl hc
  · intro oid2
    unfold order_edit
    split
    · rfl
    · split
      · rfl
      · split
        · rfl
        · dsimp only
          split
          · rfl
          · unfold orderStatus findOrder recalc_order_total
            dsimp only
            rw [find?_map_id_pres _ (fun o3 => by split <;> rfl) oid2,
              find?_map_id_pres _ (fun o3 => by split <;> rfl) oid2]
            cases hfo : s.orders.find? (fun o3 => o3.id == oid2) with
            | none => rfl
            | some o3 =>
              dsimp only [Option.map]
              split <;> rfl

/-- C6 counterexample: editing the concrete live order with an empty kept set
removes its only item, yet the status stays `new` — an order with zero items
remains in an active status, contradicting the claim. -/
theorem c6_counterexample :
    (order_edit storeSold buyer 1 "N" "P" "D" "" "" []).1 = .edited
      ∧ orderItemsOf (order_edit storeSold buyer 1 "N" "P" "D" "" "" []).2 1 = []
      ∧ orderStatus (order_edit storeSold buyer 1 "N" "P" "D" "" "" []).2 1 = some .new := by
  refine ⟨by decide, by decide, by decide⟩

/-- C6 witness: deleting the sole item of the concrete live order leaves the
order empty and `cancelled`. -/
theorem c6_witness :
    orderStatus (order_item_delete storeSold buyer 1 1).2 1 = some .cancelled := by
  exact (c6_empty_order_cancelled storeSold buyer 1 1 "N" "P" "D" "" "" []).1
    (by decide) (by decide)

/-- C1 (as amended): checkout marks every purchased book unavailable, and the
item-removing operations cancel, single-item delete and whole-order delete
restock the affected books (`is_available := true`); but order edit deletes
kept-out items without restocking anything (its books list is returned
unchanged), and the admin status transition never touches the books either,
so the claimed global availability iff-invariant is not preserved by those
two operations. -/
theorem c1_availability (s : Store) (u : User) (oid itemId uid : Nat)
    (it0 : OrderItem) (cart : List Nat) (fn ph ad em cm : String)
    (keep : List Nat) (st : String) :
    ((order_cancel s u oid).1 = .cancelledNow →
       ((order_cancel s u oid).2.books.all
         (fun b => !((orderItemsOf s oid).any (fun it => it.book_id == b.id))
           || b.is_available)) = true)
  ∧ (s.order_items.find? (fun it => it.id == itemId && it.order_id == oid) = some it0 →
       (order_item_delete s u oid itemId).1 = .itemDeleted →
       ((order_item_delete s u oid itemId).2.books.all
         (fun b => !(b.id == it0.book_id) || b.is_available)) = true)
  ∧ ((order_delete s u oid).1 = .orderDeleted →
       ((order_delete s u oid).2.books.all
         (fun b => !((orderItemsOf s oid).any (fun it => it.book_id == b.id))
           || b.is_available)) = true)
  ∧ ((cart_checkout s uid cart fn ph ad em cm).1 = .placed →
       (((cart_checkout s uid cart fn ph ad em cm).2.1).books.all
         (fun b => !(cart.contains b.id) || !b.is_available)) = true)
  ∧ ((order_edit s u oid fn ph ad em cm keep).2.books = s.books)
  ∧ ((admin_set_order_status s u oid st).2.books = s.books) := by
  refine ⟨?_, ?_, ?_, ?_, ?_, ?_⟩
  · intro hr
    obtain ⟨o, hfind, hauth, hterm, hs2⟩ := order_cancel_shape s u oid
      (order_cancel s u oid).1 (order_cancel s u oid).2 rfl hr
    rw [hs2]
    exact restockBooks_all _ _
  · intro hitem hr
    obtain ⟨o, item, hfind, hauth, hitem2⟩ := order_item_delete_shape s u oid itemId
      (order_item_delete s u oid itemId).1 (order_item_delete s u oid itemId).2 rfl hr
    have hsame : item = it0 := by
      rw [hitem] at hitem2
      exact (Option.some.injEq _ _ ▸ hitem2).symm ▸ rfl
    subst hsame
    have hE := order_item_delete_eq s u oid itemId o item hfind hauth hitem2
    rw [hE]
    dsimp only
    split
    · exact restockOne_all _ _
    · exact restockOne_all _ _
  · intro hr
    rcases hE : order_delete s u oid with ⟨r, s2⟩
    rw [hE] at hr
    have hr2 : r = .orderDeleted := hr
    subst hr2
    unfold order_delete at hE
    split at hE
    · simp at hE
    · split at hE
      · simp at hE
      · simp only [Prod.mk.injEq, true_and] at hE
        rw [← hE]
        exact restockBooks_all _ _
  · intro hr
    rcases hE : cart_checkout s uid cart fn ph ad em cm with ⟨r, s2, cart2⟩
    rw [hE] at hr
    have hr2 : r = .placed := hr
    subst hr2
    unfold cart_checkout at hE
    split at hE
    · simp at hE
    · dsimp only at hE
      split at hE
      · simp at hE
      · split at hE
        · simp at hE
        · simp only [Prod.mk.injEq, true_and] at hE
          rw [← hE.1]
          exact flipBooks_all _ _
  · exact order_edit_books_frame s u oid fn ph ad em cm keep
  · unfold admin_set_order_status
    split
    · rfl
    · split
      · rfl
      · split
        · rfl
        · rfl

/-- C1 counterexample: the concrete sold-book store satisfies the claimed
availability invariant; the owner's order edit with an empty kept set
succeeds and deletes the order's only item, yet book 1 stays unavailable —
the edit deletes an OrderItem without restoring `is_available = true`, and
the invariant no longer holds afterwards. -/
theorem c1_counterexample :
    availabilityInvariant storeSold
      ∧ (order_edit storeSold buyer 1 "N" "P" "D" "" "" []).1 = .edited
      ∧ ((order_edit storeSold buyer 1 "N" "P" "D" "" "" []).2.books.map
          (fun b => (b.id, b.is_available))) = [(1, false)]
      ∧ ¬ availabilityInvariant (order_edit storeSold buyer 1 "N" "P" "D" "" "" []).2 := by
  refine ⟨by decide, by decide, by decide, by decide⟩

/-- C1 witness: cancelling the concrete live order restocks its book. -/
theorem c1_witness :
    ((order_cancel storeSold buyer 1).2.books.all
      (fun b => !((orderItemsOf storeSold 1).any (fun it => it.book_id == b.id))
        || b.is_available)) = true := by
  exact (c1_availability storeSold buyer 1 1 3
    { id := 1, order_id := 1, book_id := 1, price_at_time := 500, quantity := 1 }
    [] "N" "P" "D" "" "" [] "new").1 (by decide)

/-- C2: checkout with a non-empty cart whose ids all name existing available
books and with non-blank required shipping fields creates exactly one new
order — status `new`, total the sum of the fetched books' prices — one
OrderItem per fetched book snapshotting `price_at_time` at that book's
current price with quantity 1, flips every cart book's availability to
false, and empties the cart.  (`hclean` rules out items dangling on the
fresh order id, which cannot arise in reachable stores.) -/
theorem c2_checkout_success (s : Store) (uid : Nat) (cart : List Nat)
    (fn ph ad em cm : String)
    (hne : cart ≠ [])
    (hbooks : ∀ bid ∈ cart, ∃ b ∈ s.books, b.id = bid ∧ b.is_available = true)
    (hfn : (pyStrip fn).data.isEmpty = false)
    (hph : (pyStrip ph).data.isEmpty = false)
    (had : (pyStrip ad).data.isEmpty = false)
    (hclean : (s.order_items.all
      (fun it => it.order_id != freshId (s.orders.map (fun o => o.id)))) = true) :
    (cart_checkout s uid cart fn ph ad em cm).1 = .placed
  ∧ (cart_checkout s uid cart fn ph ad em cm).2.2 = []
  ∧ (cart_checkout s uid cart fn ph ad em cm).2.1.orders.length = s.orders.length + 1
  ∧ orderStatus (cart_checkout s uid cart fn ph ad em cm).2.1
      (freshId (s.orders.map (fun o => o.id))) = some .new
  ∧ orderTotal (cart_checkout s uid cart fn ph ad em cm).2.1
      (freshId (s.orders.map (fun o => o.id)))
      = some (((s.books.filter (fun b => cart.contains b.id)).map (fun b => b.price)).sum)
  ∧ (orderItemsOf (cart_checkout s uid cart fn ph ad em cm).2.1
      (freshId (s.orders.map (fun o => o.id)))).map
        (fun it => (it.book_id, it.price_at_time, it.quantity))
      = (s.books.filter (fun b => cart.contains b.id)).map (fun b => (b.id, b.price, (1 : Int)))
  ∧ (cart_checkout s uid cart fn ph ad em cm).2.1.books.map (fun b => (b.id, b.is_available))
      = s.books.map (fun b => (b.id, if cart.contains b.id then false else b.is_available)) := by
  have hc1 : cart.isEmpty = false := by
    cases cart with
    | nil => exact absurd rfl hne
    | cons a t => rfl
  have hfetched : (s.books.filter (fun b => cart.contains b.id)) ≠ [] := by
    cases cart with
    | nil => exact absurd rfl hne
    | cons a t =>
      obtain ⟨b, hbmem, hbid, hbav⟩ := hbooks a (by simp)
      have hmem : b ∈ s.books.filter (fun b => (a :: t).contains b.id) := by
        apply List.mem_filter.mpr
        refine ⟨hbmem, ?_⟩
        rw [hbid]
        simp
      exact List.ne_nil_of_mem hmem
  have hc2 : (s.books.filter (fun b => cart.contains b.id)).isEmpty = false := by
    cases hx : s.books.filter (fun b => cart.contains b.id) with
    | nil => exact absurd hx hfetched
    | cons c l => rfl
  have hnons : ∀ o ∈ s.orders,
      ((fun o => o.id == freshId (s.orders.map (fun o => o.id))) o) = false := by
    intro o ho
    have h1 : o.id ∈ s.orders.map (fun o => o.id) := List.mem_map_of_mem _ ho
    have h2 := lt_freshId h1
    simpa using Nat.ne_of_lt h2
  have hfilter : s.order_items.filter
      (fun it => it.order_id == freshId (s.orders.map (fun o => o.id))) = [] := by
    rw [List.filter_eq_nil_iff]
    intro it hit
    have := List.all_eq_true.mp hclean it hit
    simpa using this
  rcases hE : cart_checkout s uid cart fn ph ad em cm with ⟨r, s2, cart2⟩
  unfold cart_checkout at hE
  split at hE
  · rename_i h
    simp [hc1] at h
  · dsimp only at hE
    split at hE
    · rename_i h
      rw [hc2] at h
      exact absurd h (by decide)
    · split at hE
      · rename_i h
        rw [hfn, hph, had] at h
        simp at h
      · simp only [Prod.mk.injEq] at hE
        obtain ⟨hr, hs, hcart⟩ := hE
        subst hr
        subst hs
        subst hcart
        refine ⟨rfl, rfl, ?_, ?_, ?_, ?_, ?_⟩
        · simp
        · unfold orderStatus findOrder
          dsimp only
          rw [find?_append_right _ _ _ hnons]
          simp [List.find?]
        · unfold orderTotal findOrder
          dsimp only
          rw [find?_append_right _ _ _ hnons]
          simp [List.find?]
        · unfold orderItemsOf
          dsimp only
          rw [List.filter_append, hfilter, List.nil_append, mkItems_filter_self]
          exact mkItems_proj _ _ _
        · dsimp only
          rw [List.map_map]
          apply List.map_congr_left
          intro b hb
          dsimp only [Function.comp]
          by_cases h : (cart.contains b.id) = true
          · rw [if_pos h, if_pos h]
          · rw [if_neg h, if_neg h]

/-- C2 witness: the spec's example — a cart holding book A at 5.00 and book B
at 7.50 with valid shipping fields — yields result `placed`, an empty cart,
order total 1250 cents (12.50), items `(book 1, 500, qty 1)` and
`(book 2, 750, qty 1)`, and both books unavailable. -/
theorem c2_witness :
    (cart_checkout storeAB 3 [1, 2] "Ivan" "123" "Addr" "" "").1 = .placed
      ∧ (cart_checkout storeAB 3 [1, 2] "Ivan" "123" "Addr" "" "").2.2 = []
      ∧ orderTotal (cart_checkout storeAB 3 [1, 2] "Ivan" "123" "Addr" "" "").2.1 1
          = some 1250
      ∧ (orderItemsOf (cart_checkout storeAB 3 [1, 2] "Ivan" "123" "Addr" "" "").2.1 1).map
          (fun it => (it.book_id, it.price_at_time, it.quantity))
          = [(1, 500, 1), (2, 750, 1)]
      ∧ (cart_checkout storeAB 3 [1, 2] "Ivan" "123" "Addr" "" "").2.1.books.map
          (fun b => (b.id, b.is_available)) = [(1, false), (2, false)] := by
  have h := c2_checkout_success storeAB 3 [1, 2] "Ivan" "123" "Addr" "" ""
    (by decide) (by decide) (by decide) (by decide) (by decide) (by decide)
  exact ⟨h.1, h.2.1, (h.2.2.2.2.1).trans (by decide),
    (h.2.2.2.2.2.1).trans (by decide), (h.2.2.2.2.2.2).trans (by decide)⟩

theorem searchFilter_skip {q : String} (h : q.data.isEmpty = true) (l : List Book) :
    searchFilter q l = l := by
  unfold searchFilter
  simp [h]

theorem authorFilter_skip {aq : String} (h : aq.data.isEmpty = true) (l : List Book) :
    authorFilter aq l = l := by
  unfold authorFilter
  simp [h]

theorem genreFilter_none (s : Store) (l : List Book) : genreFilter s none l = l := rfl

theorem priceFilterMin_apply {mp : String} {m : DecNum}
    (hne : mp.data.isEmpty = false) (h : parseDecimal (replaceCommaDot mp) = some m)
    (l : List Book) :
    priceFilterMin mp l = l.filter (fun b => decLePrice m b.price) := by
  unfold priceFilterMin
  simp [hne, h]

theorem priceFilterMax_apply {mp : String} {m : DecNum}
    (hne : mp.data.isEmpty = false) (h : parseDecimal (replaceCommaDot mp) = some m)
    (l : List Book) :
    priceFilterMax mp l = l.filter (fun b => priceLeDec b.price m) := by
  unfold priceFilterMax
  simp [hne, h]

/-- C8: the catalog route returns only available books; with supplied bounds
"10.00" and "20.00" it returns exactly the available books whose price (in
cents) lies in the inclusive range [1000, 2000]; and a bound string that
fails decimal parsing is silently ignored — the result equals the result of
the same query with that bound blank, for both the min and the max bound. -/
theorem c8_catalog_filter (s : Store) (qp : BookQuery) (b : Book)
    (q aut minstr maxstr : String) (g : Option Nat) :
    ((books s qp).all (fun b => b.is_available)) = true
  ∧ (b ∈ books s { q := "", genre_id := none, author := "",
                   min_price := "10.00", max_price := "20.00" } ↔
      (b ∈ s.books ∧ b.is_available = true ∧ 1000 ≤ b.price ∧ b.price ≤ 2000))
  ∧ (parseDecimal (replaceCommaDot (pyStrip minstr)) = none →
      books s { q := q, genre_id := g, author := aut,
                min_price := minstr, max_price := maxstr }
        = books s { q := q, genre_id := g, author := aut,
                    min_price := "", max_price := maxstr })
  ∧ (parseDecimal (replaceCommaDot (pyStrip maxstr)) = none →
      books s { q := q, genre_id := g, author := aut,
                min_price := minstr, max_price := maxstr }
        = books s { q := q, genre_id := g, author := aut,
                    min_price := minstr, max_price := "" }) := by
  refine ⟨?_, ?_, ?_, ?_⟩
  · rw [List.all_eq_true]
    intro b2 hb2
    exact (List.mem_filter.mp (books_subset_available s qp b2 hb2)).2
  · unfold books
    dsimp only
    rw [mem_sortByCreatedDesc]
    rw [searchFilter_skip (by decide), genreFilter_none, authorFilter_skip (by decide)]
    rw [priceFilterMin_apply (by decide)
      (by decide : parseDecimal (replaceCommaDot (pyStrip "10.00"))
        = some { num := 1000, scale := 2 })]
    rw [priceFilterMax_apply (by decide)
      (by decide : parseDecimal (replaceCommaDot (pyStrip "20.00"))
        = some { num := 2000, scale := 2 })]
    simp only [List.mem_filter, decLePrice, priceLeDec, decide_eq_true_eq]
    norm_num
    constructor
    · rintro ⟨⟨⟨hb, hav⟩, h10⟩, h20⟩
      exact ⟨hb, hav, by omega, by omega⟩
    · rintro ⟨hb, hav, h10, h20⟩
      exact ⟨⟨⟨hb, hav⟩, by omega⟩, by omega⟩
  · intro hm
    unfold books
    dsimp only
    rw [priceFilterMin_skip hm, priceFilterMin_skip (by decide)]
  · intro hm
    unfold books
    dsimp only
    rw [priceFilterMax_skip hm, priceFilterMax_skip (by decide)]

/-- C8 witness: on the concrete two-book store a malformed `min_price = "abc"`
yields the same catalog as omitting the bound. -/
theorem c8_witness :
    books storeAB { q := "", genre_id := none, author := "",
                    min_price := "abc", max_price := "" }
      = books storeAB { q := "", genre_id := none, author := "",
                        min_price := "", max_price := "" } := by
  exact (c8_catalog_filter storeAB { q := "", genre_id := none, author := "",
                                     min_price := "", max_price := "" }
    bookA "" "" "abc" "" none).2.2.1 (by decide)
